import Mathlib

/-!
Shallow embedding of the LogMaster session gameplay engine.

Namespaces:
- `GM`   embeds `src/src/lib/game-manager.ts` (the `GameManager` class).
- `RGC`  embeds the Phaser `GameScene` inside
  `src/src/components/RetroGameCanvas.tsx` (hit resolution, scoring,
  pause-aware timer, level progression).
- `CVX`  embeds the Convex mutations in `src/convex/gameSessions.ts`.
- `HOOK` embeds the `useConvexGame` hook's achievement evaluation
  (`checkAndUnlockAchievements`), in its two drafts found in the repository,
  and the achievement catalog from `src/convex/achievements.ts`.

JavaScript numbers are modelled as `Int` where values can be negative
(scores, point values, hit counts after decrement, timestamps used in
subtractions) and as `Nat` for plain counters. Structured-logging and
rendering calls are effects with no bearing on game state and are omitted.
-/

namespace GM

/-- `LogItem` from game-manager.ts. -/
structure LogItem where
  id : String
  type : String
  size : String
  health : Int
  maxHealth : Int
  points : Int
  x : Int
  y : Int
  chopped : Bool
  deriving Repr, DecidableEq

/-- `PowerUp` from game-manager.ts. -/
structure PowerUp where
  id : String
  type : String
  duration : Nat
  active : Bool
  activatedAt : Option Nat
  deriving Repr, DecidableEq

/-- `Achievement` from game-manager.ts. -/
structure Achievement where
  id : String
  name : String
  description : String
  icon : String
  progress : Nat
  maxProgress : Nat
  unlocked : Bool
  unlockedAt : Option Nat
  deriving Repr, DecidableEq

/-- `GameStats` from game-manager.ts; `logsChopped` is the string-keyed
counter object, modelled as an association list. -/
structure GameStats where
  totalPlayTime : Nat
  sessionsPlayed : Nat
  averageChopsPerMinute : Nat
  longestCombo : Nat
  fastestChop : Nat
  logsChopped : List (String × Nat)
  deriving Repr, DecidableEq

/-- `GameState` from game-manager.ts. -/
structure GameState where
  playerId : String
  playerName : String
  score : Int
  level : Nat
  totalChops : Nat
  bestCombo : Nat
  currentCombo : Nat
  logs : List LogItem
  powerUps : List PowerUp
  achievements : List Achievement
  stats : GameStats
  lastUpdated : Nat
  deriving Repr, DecidableEq

/-- The result record returned by `chopLog`. -/
structure ChopResult where
  success : Bool
  points : Int
  comboMultiplier : Nat
  deriving Repr, DecidableEq

/-- Replace the first element satisfying `p` by its image under `f`;
models JavaScript `Array.prototype.find` followed by in-place mutation
of the found object. -/
def updateFirst (p : α → Bool) (f : α → α) : List α → List α
  | [] => []
  | a :: rest => if p a then f a :: rest else a :: updateFirst p f rest

/-- Lookup in the `logsChopped` counter object (`store[k] || 0`). -/
def getCount (store : List (String × Nat)) (k : String) : Nat :=
  match store.find? (fun kv => kv.1 == k) with
  | some kv => kv.2
  | none => 0

/-- Assignment `store[k] = v` on the counter object. -/
def setCount (store : List (String × Nat)) (k : String) (v : Nat) :
    List (String × Nat) :=
  if (store.find? (fun kv => kv.1 == k)).isSome then
    updateFirst (fun kv => kv.1 == k) (fun kv => (kv.1, v)) store
  else store ++ [(k, v)]

/-- The combo multiplier computed in `chopLog` (game-manager.ts line 274):
`Math.min(Math.floor(currentCombo / 5) + 1, 5)`. -/
def comboMultiplier (combo : Nat) : Nat := min (combo / 5 + 1) 5

/-- `updateAchievementProgress` from game-manager.ts (lines 342-374):
finds the achievement, returns unchanged if absent or already unlocked,
otherwise sets `progress = min(progress, maxProgress)` and unlocks
(stamping `unlockedAt = now`) when the threshold is reached. -/
def updateAchievementProgress (s : GameState) (aid : String) (p now : Nat) :
    GameState :=
  match s.achievements.find? (fun a => a.id == aid) with
  | none => s
  | some a =>
    if a.unlocked then s
    else
      let prog := min p a.maxProgress
      let f : Achievement → Achievement := fun b =>
        if a.maxProgress ≤ prog then
          { b with progress := prog, unlocked := true, unlockedAt := some now }
        else { b with progress := prog }
      { s with achievements := updateFirst (fun b => b.id == aid) f s.achievements }

/-- The `fastestChop` update in `chopLog` (line 307). `reactionTime &&`
is JavaScript truthiness, so a reaction time of 0 is skipped. -/
def updateFastest (st : GameStats) (rt : Option Nat) : GameStats :=
  match rt with
  | none => st
  | some r =>
    if r ≠ 0 ∧ (st.fastestChop = 0 ∨ r < st.fastestChop) then
      { st with fastestChop := r }
    else st

/-- The `logsChopped` stats update in `chopLog` (line 305). -/
def bumpLogChopped (st : GameStats) (k : String) : GameStats :=
  { st with logsChopped := setCount st.logsChopped k (getCount st.logsChopped k + 1) }

/-- The predicate of the `find` call in `chopLog` (line 256):
`l.id === logId && !l.chopped`. -/
def chopPred (logId : String) (l : LogItem) : Bool := l.id == logId && !l.chopped

/-- `chopLog` from game-manager.ts (lines 251-340). `now` stands for
`Date.now()` used by `saveState` and achievement unlock stamping. -/
def chopLog (s : GameState) (logId : String) (rt : Option Nat) (now : Nat) :
    GameState × ChopResult :=
  match s.logs.find? (chopPred logId) with
  | none => (s, { success := false, points := 0, comboMultiplier := 1 })
  | some log =>
    if log.health - 1 ≤ 0 then
      let combo' := s.currentCombo + 1
      let mult := comboMultiplier combo'
      let pts := log.points * (mult : Int)
      let logs' := updateFirst (chopPred logId)
        (fun l => { l with health := l.health - 1, chopped := true }) s.logs
      let s1 : GameState :=
        { s with logs := logs', currentCombo := combo',
                 totalChops := s.totalChops + 1,
                 score := s.score + pts,
                 bestCombo := if s.bestCombo < combo' then combo' else s.bestCombo }
      let s2 := updateAchievementProgress s1 "first_chop" 1 now
      let s3 := updateAchievementProgress s2 "century_club" 1 now
      let s4 := updateAchievementProgress s3 "combo_master" combo' now
      let s5 := if log.type == "golden" then
          updateAchievementProgress s4 "golden_touch" 1 now
        else s4
      let s6 := { s5 with stats := updateFastest (bumpLogChopped s5.stats log.type) rt }
      ({ s6 with lastUpdated := now },
       { success := true, points := pts, comboMultiplier := mult })
    else
      let logs' := updateFirst (chopPred logId)
        (fun l => { l with health := l.health - 1 }) s.logs
      ({ s with logs := logs' },
       { success := false, points := 0, comboMultiplier := 1 })

/-- `resetCombo` from game-manager.ts (lines 430-443): early return when the
combo is already 0; otherwise zero the combo and save (which stamps
`lastUpdated = Date.now()`). -/
def resetCombo (s : GameState) (now : Nat) : GameState :=
  if s.currentCombo = 0 then s
  else { s with currentCombo := 0, lastUpdated := now }

/-- The session events that mutate combo-related state: a chop attempt,
an explicit combo reset (miss), and a spawn (`spawnLog` pushes the drawn
log and saves). -/
inductive GMEvent
  | chop (logId : String) (rt : Option Nat) (now : Nat)
  | reset (now : Nat)
  | spawn (log : LogItem) (now : Nat)
  deriving Repr, DecidableEq

/-- One event applied to the game state. -/
def stepGM (s : GameState) (e : GMEvent) : GameState :=
  match e with
  | .chop logId rt now => (chopLog s logId rt now).1
  | .reset now => resetCombo s now
  | .spawn log now => { s with logs := s.logs ++ [log], lastUpdated := now }

/-- A sequence of session events. -/
def runGM (s : GameState) (evs : List GMEvent) : GameState :=
  evs.foldl stepGM s

/-- `createInitialAchievements` from game-manager.ts (display strings kept). -/
def createInitialAchievements : List Achievement :=
  [ { id := "first_chop", name := "First Swing",
      description := "Chop your first log", icon := "axe",
      progress := 0, maxProgress := 1, unlocked := false, unlockedAt := none },
    { id := "combo_master", name := "Combo Master",
      description := "Achieve a 10x combo", icon := "fire",
      progress := 0, maxProgress := 10, unlocked := false, unlockedAt := none },
    { id := "century_club", name := "Century Club",
      description := "Chop 100 logs", icon := "hundred",
      progress := 0, maxProgress := 100, unlocked := false, unlockedAt := none },
    { id := "golden_touch", name := "Golden Touch",
      description := "Find and chop a golden log", icon := "trophy",
      progress := 0, maxProgress := 1, unlocked := false, unlockedAt := none },
    { id := "speed_demon", name := "Speed Demon",
      description := "Chop 50 logs in under 2 minutes", icon := "bolt",
      progress := 0, maxProgress := 50, unlocked := false, unlockedAt := none } ]

/-- Observer: the achievement with the given id, as `find` would locate it. -/
def getAch (s : GameState) (aid : String) : Option Achievement :=
  s.achievements.find? (fun a => a.id == aid)

end GM

namespace RGC

/-- A `LogObject` of the Phaser scene in RetroGameCanvas.tsx. Position and
size are opaque to the gameplay logic and only consulted through
`getBounds()`; the bounds rectangle is therefore carried directly
(`boundX`/`boundY` its top-left corner, `boundW`/`boundH` its extent). -/
structure LogObj where
  logType : String
  hitsRemaining : Int
  points : Int
  boundX : Int
  boundY : Int
  boundW : Int
  boundH : Int
  fallSpeed : Int
  deriving Repr, DecidableEq

/-- `Phaser.Geom.Rectangle.Contains(bounds, x, y)`: false on an empty
rectangle, otherwise inclusive containment on both axes. -/
def containsPoint (l : LogObj) (x y : Int) : Bool :=
  if l.boundW ≤ 0 ∨ l.boundH ≤ 0 then false
  else decide (l.boundX ≤ x ∧ x ≤ l.boundX + l.boundW ∧
               l.boundY ≤ y ∧ y ≤ l.boundY + l.boundH)

/-- The mutable scene fields of `GameScene` that the gameplay logic touches. -/
structure Scene where
  score : Int
  combo : Nat
  level : Nat
  gameTime : Nat
  logs : List LogObj
  logSpawnTimer : Nat
  logSpawnRate : Int
  gameStartTime : Int
  totalPausedTime : Int
  pauseStartTime : Int
  deriving Repr, DecidableEq

/-- The multiplier applied on a non-error destroy in `chopAtPosition`
(RetroGameCanvas.tsx line 480): `Math.max(1, Math.floor(this.combo / 5) + 1)`.
Unlike game-manager.ts, there is no cap at 5. -/
def destroyMultiplier (combo : Nat) : Nat := max 1 (combo / 5 + 1)

/-- The scoring step on a destroyed log (RetroGameCanvas.tsx lines 474-482):
error logs zero the combo and clamp the score at 0 after adding their
negative points; other logs bump the combo and add `points × multiplier`. -/
def applyDestroy (s : Scene) (log : LogObj) : Scene :=
  if log.logType == "error" then
    { s with combo := 0, score := max 0 (s.score + log.points) }
  else
    let combo' := s.combo + 1
    { s with combo := combo',
             score := s.score + log.points * (destroyMultiplier combo' : Int) }

/-- `log.hitsRemaining--`. -/
def decrLog (l : LogObj) : LogObj := { l with hitsRemaining := l.hitsRemaining - 1 }

/-- What happened to the single log hit by a chop. -/
inductive HitEvent
  | destroyed (log : LogObj)
  | damaged (log : LogObj)
  deriving Repr, DecidableEq

/-- The scan loop of `chopAtPosition` (lines 427-552), expressed on the
reversed log list: the JavaScript loop walks `this.logs` from the highest
index (most recently spawned) down, decrements the first log whose bounds
contain the point, splices it out if destroyed, and breaks. Returns the
remaining (still reversed) list and the hit event, or `none` on a miss. -/
def chopRev (x y : Int) : List LogObj → Option (List LogObj × HitEvent)
  | [] => none
  | l :: rest =>
    if containsPoint l x y then
      if (decrLog l).hitsRemaining ≤ 0 then some (rest, .destroyed (decrLog l))
      else some (decrLog l :: rest, .damaged (decrLog l))
    else
      match chopRev x y rest with
      | none => none
      | some (rest', ev) => some (l :: rest', ev)

/-- `chopAtPosition(x, y)` (lines 411-572): no-op while paused; otherwise
scan for a hit; on a destroy apply the scoring step, on a damage keep only
the decremented hit count, and on a miss reset the combo with no score
change. -/
def chopAtPosition (isPaused : Bool) (s : Scene) (x y : Int) : Scene :=
  if isPaused then s
  else
    match chopRev x y s.logs.reverse with
    | none => { s with combo := 0 }
    | some (rest, .destroyed l) => applyDestroy { s with logs := rest.reverse } l
    | some (rest, .damaged _) => { s with logs := rest.reverse }

/-- The pause-transition bookkeeping at the top of `update` (lines 706-713):
entering pause records `pauseStartTime`; leaving pause folds the paused
interval into `totalPausedTime`; all other combinations change nothing. -/
def handlePause (isPaused : Bool) (now : Int) (s : Scene) : Scene :=
  if isPaused then
    if s.pauseStartTime = 0 then { s with pauseStartTime := now } else s
  else
    if 0 < s.pauseStartTime then
      { s with totalPausedTime := s.totalPausedTime + (now - s.pauseStartTime),
               pauseStartTime := 0 }
    else s

/-- The elapsed-time computation of `updateUI` (lines 689-695): frozen at
`pauseStartTime` while paused, otherwise measured from `now`, minus all
accumulated paused time. -/
def elapsedActive (isPaused : Bool) (now : Int) (s : Scene) : Int :=
  if isPaused then
    if 0 < s.pauseStartTime then
      s.pauseStartTime - s.gameStartTime - s.totalPausedTime
    else now - s.gameStartTime - s.totalPausedTime
  else now - s.gameStartTime - s.totalPausedTime

/-- The level-progression portion of `update` (lines 719-730): while paused,
no gameplay mutation; otherwise `gameTime += delta`, and when
`floor(gameTime / 30000) + 1` exceeds the current level the level and the
spawn rate `max(500, 2000 - level*100)` are raised. -/
def tickLevel (isPaused : Bool) (delta : Nat) (s : Scene) : Scene :=
  if isPaused then s
  else
    let gameTime' := s.gameTime + delta
    let newLevel := gameTime' / 30000 + 1
    if s.level < newLevel then
      { s with gameTime := gameTime', level := newLevel,
               logSpawnRate := max 500 (2000 - (newLevel : Int) * 100) }
    else { s with gameTime := gameTime' }

/-- A sequence of ticks, each given as (isPaused, delta). -/
def runTicks (s : Scene) (ds : List (Bool × Nat)) : Scene :=
  ds.foldl (fun t pd => tickLevel pd.1 pd.2 t) s

end RGC

namespace CVX

/-- A power-up record as stored in a `gameSessions` row. -/
structure PowerUpRec where
  type : String
  activatedAt : Nat
  duration : Nat
  deriving Repr, DecidableEq

/-- The mutable fields of a `gameSessions` row touched by `updateGameSession`. -/
structure SessionRec where
  score : Int
  level : Nat
  combo : Nat
  maxCombo : Nat
  powerUps : List PowerUpRec
  deriving Repr, DecidableEq

/-- The arguments of the `updateGameSession` mutation. -/
structure UpdateArgs where
  score : Int
  level : Nat
  combo : Nat
  maxCombo : Nat
  powerUps : Option (List PowerUpRec)
  deriving Repr, DecidableEq

/-- `updateGameSession` from convex/gameSessions.ts (lines 23-50): patches
score, level and combo from the arguments, stores
`maxCombo = Math.max(args.maxCombo, args.combo)`, and patches powerUps only
when supplied. -/
def updateGameSession (r : SessionRec) (a : UpdateArgs) : SessionRec :=
  { score := a.score, level := a.level, combo := a.combo,
    maxCombo := max a.maxCombo a.combo,
    powerUps := match a.powerUps with | some p => p | none => r.powerUps }

end CVX

namespace HOOK

/-- An achievement catalog row (convex/achievements.ts); display-only
fields (name, description, icon, points, rarity) are omitted as inert. -/
structure AchievementDef where
  id : String
  reqType : String
  reqValue : Int
  deriving Repr, DecidableEq

/-- The session stats passed to `checkAndUnlockAchievements`. -/
structure SessionStats where
  score : Int
  combo : Int
  chops : Int
  reactionTime : Option Int
  deriving Repr, DecidableEq

/-- The `switch (achievement.requirement.type)` of the
`checkAndUnlockAchievements` draft in the unnamed hook file (part_000,
lines 131-145): cases score, combo, chops_single_game, reaction_time;
any other requirement type leaves `shouldUnlock` false. -/
def shouldUnlockV1 (stats : SessionStats) (a : AchievementDef) : Bool :=
  if a.reqType == "score" then decide (a.reqValue ≤ stats.score)
  else if a.reqType == "combo" then decide (a.reqValue ≤ stats.combo)
  else if a.reqType == "chops_single_game" then decide (a.reqValue ≤ stats.chops)
  else if a.reqType == "reaction_time" then
    match stats.reactionTime with
    | some rt => decide (rt ≤ a.reqValue)
    | none => false
  else false

/-- The same switch in the later `useConvexGame` draft (appended after
convex/schema.ts, lines 228-246), which adds the `total_chops` case:
`(player?.totalChops || 0) + (stats.chops || 0) >= value`. -/
def shouldUnlockV2 (playerTotalChops : Int) (stats : SessionStats)
    (a : AchievementDef) : Bool :=
  if a.reqType == "score" then decide (a.reqValue ≤ stats.score)
  else if a.reqType == "combo" then decide (a.reqValue ≤ stats.combo)
  else if a.reqType == "chops_single_game" then decide (a.reqValue ≤ stats.chops)
  else if a.reqType == "reaction_time" then
    match stats.reactionTime with
    | some rt => decide (rt ≤ a.reqValue)
    | none => false
  else if a.reqType == "total_chops" then
    decide (a.reqValue ≤ playerTotalChops + stats.chops)
  else false

/-- The catalog loop of the part_000 draft: skip already-held achievements,
collect the ids whose predicate fires. -/
def checkAndUnlockV1 (playerAch : List String) (stats : SessionStats) :
    List AchievementDef → List String
  | [] => []
  | a :: rest =>
    if playerAch.contains a.id then checkAndUnlockV1 playerAch stats rest
    else if shouldUnlockV1 stats a then a.id :: checkAndUnlockV1 playerAch stats rest
    else checkAndUnlockV1 playerAch stats rest

/-- The catalog loop of the later draft. -/
def checkAndUnlockV2 (playerAch : List String) (playerTotalChops : Int)
    (stats : SessionStats) : List AchievementDef → List String
  | [] => []
  | a :: rest =>
    if playerAch.contains a.id then checkAndUnlockV2 playerAch playerTotalChops stats rest
    else if shouldUnlockV2 playerTotalChops stats a then
      a.id :: checkAndUnlockV2 playerAch playerTotalChops stats rest
    else checkAndUnlockV2 playerAch playerTotalChops stats rest

/-- The `thousand_cuts` row of `initializeAchievements`
(convex/achievements.ts lines 61-69): requirement
`{ type: "total_chops", value: 1000 }`. -/
def thousandCuts : AchievementDef :=
  { id := "thousand_cuts", reqType := "total_chops", reqValue := 1000 }

end HOOK

namespace Fixture

/-- A quiescent scene to build concrete test scenes from. -/
def baseScene : RGC.Scene :=
  { score := 0, combo := 0, level := 1, gameTime := 0, logs := [],
    logSpawnTimer := 0, logSpawnRate := 2000,
    gameStartTime := 0, totalPausedTime := 0, pauseStartTime := 0 }

/-- Fresh `GameStats` as `createInitialGameState` builds them. -/
def baseStats : GM.GameStats :=
  { totalPlayTime := 0, sessionsPlayed := 1, averageChopsPerMinute := 0,
    longestCombo := 0, fastestChop := 0, logsChopped := [] }

/-- A fresh game-manager state as `createInitialGameState` builds it. -/
def baseState : GM.GameState :=
  { playerId := "p1", playerName := "Lumberjack_test", score := 0, level := 1,
    totalChops := 0, bestCombo := 0, currentCombo := 0, logs := [],
    powerUps := [], achievements := GM.createInitialAchievements,
    stats := baseStats, lastUpdated := 0 }

/-- A canvas scene at combo 24 with one 1-hit normal log under the pointer. -/
def c1scene : RGC.Scene :=
  { baseScene with
    combo := 24,
    logs := [{ logType := "normal", hitsRemaining := 1, points := 50,
               boundX := 0, boundY := 0, boundW := 100, boundH := 100,
               fallSpeed := 120 }] }

/-- A scene at score 40 and combo 10, for the hazard-destroy scenario. -/
def hazardScene : RGC.Scene := { baseScene with score := 40, combo := 10 }

/-- A destroyed error log with pointValue -100. -/
def hazardLog : RGC.LogObj :=
  { logType := "error", hitsRemaining := 0, points := -100,
    boundX := 0, boundY := 0, boundW := 80, boundH := 50, fallSpeed := 100 }

/-- A game-manager state mid-streak: combo 10, best 10. -/
def c3state : GM.GameState := { baseState with currentCombo := 10, bestCombo := 10 }

/-- A session row before an update. -/
def c3rec : CVX.SessionRec :=
  { score := 100, level := 1, combo := 4, maxCombo := 6, powerUps := [] }

/-- Update arguments as the client would send mid-session. -/
def c3args : CVX.UpdateArgs :=
  { score := 150, level := 1, combo := 5, maxCombo := 6, powerUps := none }

/-- A 2-hit normal log whose bounds do not contain the test point (5, 5). -/
def c4logA : RGC.LogObj :=
  { logType := "normal", hitsRemaining := 2, points := 50,
    boundX := 200, boundY := 200, boundW := 60, boundH := 40, fallSpeed := 100 }

/-- A 1-hit golden log whose bounds contain the test point (5, 5). -/
def c4logB : RGC.LogObj :=
  { logType := "golden", hitsRemaining := 1, points := 500,
    boundX := 0, boundY := 0, boundW := 80, boundH := 50, fallSpeed := 100 }

/-- A reversed scan list: `c4logA` is scanned first, `c4logB` second. -/
def c4rl : List RGC.LogObj := [c4logA, c4logB]

/-- A scene holding both C4 test logs. -/
def c4scene : RGC.Scene := { baseScene with logs := [c4logB, c4logA] }

/-- A running timer scene started at t = 1000 ms. -/
def timerScene : RGC.Scene := { baseScene with gameStartTime := 1000 }

/-- The combo_master achievement already at progress 5, still locked. -/
def comboMasterAt5 : GM.Achievement :=
  { id := "combo_master", name := "Combo Master",
    description := "Achieve a 10x combo", icon := "fire",
    progress := 5, maxProgress := 10, unlocked := false, unlockedAt := none }

/-- A state with combo_master at progress 5, combo broken back to 0, and a
fresh 1-hit log "a" to chop. -/
def c7state : GM.GameState :=
  { baseState with
    achievements := [comboMasterAt5],
    logs := [{ id := "a", type := "regular", size := "small", health := 1,
               maxHealth := 1, points := 10, x := 0, y := 0, chopped := false }] }

/-- An already-unlocked achievement. -/
def unlockedAch : GM.Achievement :=
  { id := "first_chop", name := "First Swing",
    description := "Chop your first log", icon := "axe",
    progress := 1, maxProgress := 1, unlocked := true, unlockedAt := some 42 }

/-- A state holding only an unlocked achievement. -/
def c7unlockedState : GM.GameState := { baseState with achievements := [unlockedAch] }

/-- Session stats with one chop, as passed to the achievement check. -/
def c8stats : HOOK.SessionStats :=
  { score := 0, combo := 0, chops := 1, reactionTime := none }

/-- A state whose only log with id "a" is already chopped. -/
def c9state : GM.GameState :=
  { baseState with
    score := 77, totalChops := 3, bestCombo := 4, currentCombo := 2,
    logs := [{ id := "a", type := "regular", size := "small", health := 0,
               maxHealth := 1, points := 10, x := 0, y := 0, chopped := true }] }

/-- A state with a live combo of 3 and lastUpdated 100. -/
def c10state : GM.GameState :=
  { baseState with currentCombo := 3, bestCombo := 3, lastUpdated := 100 }

end Fixture

/-! ### Claim theorems -/

/-- Claim C1, counterexample. In `chopAtPosition` the multiplier is not
capped: destroying a normal log at combo 24 yields combo 25 and awards
50 × 6 = 300 points, with multiplier 6 ≠ min(floor(25/5)+1, 5) = 5. -/
theorem C1_counterexample :
    (RGC.chopAtPosition false Fixture.c1scene 10 10).score = 300 ∧
    (RGC.chopAtPosition false Fixture.c1scene 10 10).combo = 25 ∧
    RGC.destroyMultiplier 25 = 6 ∧
    ¬ RGC.destroyMultiplier 25 = min (25 / 5 + 1) 5 := by decide

/-- Claim C1, amended. `chopLog` in game-manager.ts applies the multiplier
min(floor(c/5)+1, 5), which never exceeds 5; `chopAtPosition` in
RetroGameCanvas.tsx applies max(1, floor(c/5)+1) = floor(c/5)+1, which is
uncapped and exceeds 5 exactly when the post-increment combo reaches 25. -/
theorem C1_amended (c : Nat) :
    GM.comboMultiplier c = min (c / 5 + 1) 5 ∧
    GM.comboMultiplier c ≤ 5 ∧
    RGC.destroyMultiplier c = c / 5 + 1 ∧
    (5 < RGC.destroyMultiplier c ↔ 25 ≤ c) := by
  refine ⟨rfl, ?_, ?_, ?_⟩
  · exact min_le_right _ _
  · unfold RGC.destroyMultiplier; omega
  · unfold RGC.destroyMultiplier; omega

/-- Claim C2. Destroying an error (hazard) log always zeroes the combo and
sets the score to max(0, score + pointValue), so the score is never
negative afterwards, whatever the prior score and streak. -/
theorem C2_hazard_destroy (s : RGC.Scene) (log : RGC.LogObj)
    (h : log.logType = "error") :
    (RGC.applyDestroy s log).combo = 0 ∧
    (RGC.applyDestroy s log).score = max 0 (s.score + log.points) ∧
    0 ≤ (RGC.applyDestroy s log).score := by
  unfold RGC.applyDestroy
  rw [h]
  exact ⟨by simp, by simp, by simp⟩

/-- Witness for C2: Scenario E, a hazard destroy with pointValue -100 at
score 40 and combo 10 leaves combo 0 and score exactly 0. -/
theorem C2_witness :
    (RGC.applyDestroy Fixture.hazardScene Fixture.hazardLog).combo = 0 ∧
    (RGC.applyDestroy Fixture.hazardScene Fixture.hazardLog).score =
      max 0 (Fixture.hazardScene.score + Fixture.hazardLog.points) ∧
    (RGC.applyDestroy Fixture.hazardScene Fixture.hazardLog).score = 0 := by
  have h := C2_hazard_destroy Fixture.hazardScene Fixture.hazardLog rfl
  exact ⟨h.1, h.2.1, by decide⟩

/-- Claim C9. A chop referencing a log id that is absent or already chopped
is a silent no-op: `chopLog` returns the failure result
(success false, 0 points, multiplier 1) and the state is unchanged. -/
theorem C9_unknown_target (s : GM.GameState) (logId : String)
    (rt : Option Nat) (now : Nat)
    (h : s.logs.find? (GM.chopPred logId) = none) :
    GM.chopLog s logId rt now =
      (s, { success := false, points := 0, comboMultiplier := 1 }) := by
  unfold GM.chopLog
  rw [h]

/-- Witness for C9: chopping the already-chopped log "a" changes nothing. -/
theorem C9_witness :
    GM.chopLog Fixture.c9state "a" none 5 =
      (Fixture.c9state, { success := false, points := 0, comboMultiplier := 1 }) :=
  C9_unknown_target Fixture.c9state "a" none 5 (by decide)

/-- Claim C10, counterexample. `resetCombo` from a live combo also rewrites
`lastUpdated` (through `saveState`), so it does not modify only the
`currentCombo` field. -/
theorem C10_counterexample :
    (GM.resetCombo Fixture.c10state 200).currentCombo = 0 ∧
    (GM.resetCombo Fixture.c10state 200).lastUpdated = 200 ∧
    Fixture.c10state.lastUpdated = 100 := by decide

/-- Claim C10, amended. `resetCombo` zeroes `currentCombo` and, when the
combo was live, stamps `lastUpdated` with the save time; score, bestCombo,
totalChops, level, logs, powerUps, achievements and stats are unchanged,
and when the combo is already 0 the whole state is returned untouched. -/
theorem C10_amended (s : GM.GameState) (now : Nat) :
    (GM.resetCombo s now).currentCombo = 0 ∧
    (GM.resetCombo s now).score = s.score ∧
    (GM.resetCombo s now).bestCombo = s.bestCombo ∧
    (GM.resetCombo s now).totalChops = s.totalChops ∧
    (GM.resetCombo s now).level = s.level ∧
    (GM.resetCombo s now).logs = s.logs ∧
    (GM.resetCombo s now).powerUps = s.powerUps ∧
    (GM.resetCombo s now).achievements = s.achievements ∧
    (GM.resetCombo s now).stats = s.stats ∧
    (GM.resetCombo s now).lastUpdated =
      (if s.currentCombo = 0 then s.lastUpdated else now) ∧
    (s.currentCombo = 0 → GM.resetCombo s now = s) := by
  unfold GM.resetCombo
  by_cases h0 : s.currentCombo = 0 <;> simp [h0]

/-- Witness for C10: on a state whose combo is already 0, `resetCombo` is
the identity. -/
theorem C10_witness : GM.resetCombo Fixture.baseState 500 = Fixture.baseState :=
  (C10_amended Fixture.baseState 500).2.2.2.2.2.2.2.2.2.2 (by decide)

/-- Claim C5. While running, `elapsedActive` is now − startedAt −
pausedAccum; resuming while running is a no-op; after pausing at `tp` the
value is frozen at `tp` − startedAt − pausedAccum; pausing again while
paused changes nothing; and after resuming at `tr` the elapsed active time
differs from the running-clock value by exactly the paused duration
`tr − tp`. -/
theorem C5_pause_accounting (s : RGC.Scene) (tp tr now : Int)
    (hrun : s.pauseStartTime = 0) (hp : 0 < tp) :
    RGC.elapsedActive false now s = now - s.gameStartTime - s.totalPausedTime ∧
    RGC.handlePause false now s = s ∧
    RGC.elapsedActive true now (RGC.handlePause true tp s) =
      tp - s.gameStartTime - s.totalPausedTime ∧
    RGC.handlePause true now (RGC.handlePause true tp s) =
      RGC.handlePause true tp s ∧
    (RGC.handlePause false tr (RGC.handlePause true tp s)).pauseStartTime = 0 ∧
    RGC.elapsedActive false now
        (RGC.handlePause false tr (RGC.handlePause true tp s)) =
      (now - s.gameStartTime - s.totalPausedTime) - (tr - tp) := by
  refine ⟨rfl, ?_, ?_, ?_, ?_, ?_⟩
  · unfold RGC.handlePause
    simp [hrun]
  · unfold RGC.handlePause RGC.elapsedActive
    simp [hrun, hp]
  · unfold RGC.handlePause
    simp [hrun, hp, hp.ne']
  · unfold RGC.handlePause
    simp [hrun, hp]
  · unfold RGC.handlePause RGC.elapsedActive
    simp [hrun, hp]
    ring

/-- Witness for C5: started at 1000 ms, paused at 5000 ms, resumed at
10000 ms; at wall clock 20000 ms the elapsed active time is 14000 ms,
exactly 5000 ms less than the wall-clock elapsed 19000 ms. -/
theorem C5_witness :
    RGC.elapsedActive false 20000 Fixture.timerScene =
      20000 - Fixture.timerScene.gameStartTime - Fixture.timerScene.totalPausedTime ∧
    RGC.elapsedActive false 20000
        (RGC.handlePause false 10000 (RGC.handlePause true 5000 Fixture.timerScene)) =
      (20000 - Fixture.timerScene.gameStartTime - Fixture.timerScene.totalPausedTime)
        - (10000 - 5000) ∧
    RGC.elapsedActive false 20000
        (RGC.handlePause false 10000 (RGC.handlePause true 5000 Fixture.timerScene)) =
      14000 := by
  have h := C5_pause_accounting Fixture.timerScene 5000 10000 20000 rfl (by decide)
  exact ⟨h.1, h.2.2.2.2.2, by decide⟩

/-- One tick preserves the level formula and never lowers the level. -/
theorem tickLevel_inv (ip : Bool) (d : Nat) (s : RGC.Scene)
    (h : s.level = s.gameTime / 30000 + 1) :
    (RGC.tickLevel ip d s).level = (RGC.tickLevel ip d s).gameTime / 30000 + 1 ∧
    s.level ≤ (RGC.tickLevel ip d s).level := by
  unfold RGC.tickLevel
  cases ip with
  | true => exact ⟨h, le_refl _⟩
  | false =>
    by_cases hc : s.level < (s.gameTime + d) / 30000 + 1
    · simp only [Bool.false_eq_true, if_false, if_pos hc]
      exact ⟨trivial, le_of_lt hc⟩
    · simp only [Bool.false_eq_true, if_false, if_neg hc]
      exact ⟨by omega, le_refl _⟩

/-- Claim C6. Whenever the scene satisfies the level formula
`level = floor(gameTime / 30000) + 1`, any sequence of ticks (paused or
running, with arbitrary deltas) re-establishes it — the level is exactly
`floor(elapsed active time / 30000) + 1` — and the level never decreases. -/
theorem C6_level_progression (s : RGC.Scene) (ds : List (Bool × Nat))
    (h : s.level = s.gameTime / 30000 + 1) :
    (RGC.runTicks s ds).level = (RGC.runTicks s ds).gameTime / 30000 + 1 ∧
    s.level ≤ (RGC.runTicks s ds).level := by
  induction ds generalizing s with
  | nil => exact ⟨h, le_refl _⟩
  | cons pd rest ih =>
    have h1 := tickLevel_inv pd.1 pd.2 s h
    have h2 := ih (RGC.tickLevel pd.1 pd.2 s) h1.1
    exact ⟨h2.1, le_trans h1.2 h2.2⟩

/-- Witness for C6: from a fresh scene, a 31-second running tick,
a paused tick, and a 32-second running tick reach level 3 = 63000/30000 + 1,
monotonically up from level 1. -/
theorem C6_witness :
    (RGC.runTicks Fixture.baseScene [(false, 31000), (true, 5000), (false, 32000)]).level =
      (RGC.runTicks Fixture.baseScene [(false, 31000), (true, 5000), (false, 32000)]).gameTime
        / 30000 + 1 ∧
    Fixture.baseScene.level ≤
      (RGC.runTicks Fixture.baseScene [(false, 31000), (true, 5000), (false, 32000)]).level ∧
    (RGC.runTicks Fixture.baseScene [(false, 31000), (true, 5000), (false, 32000)]).level = 3 := by
  have h := C6_level_progression Fixture.baseScene
    [(false, 31000), (true, 5000), (false, 32000)] (by decide)
  exact ⟨h.1, h.2, by decide⟩

/-- Achievement-progress updates never touch the current combo. -/
theorem uap_currentCombo (s : GM.GameState) (aid : String) (p now : Nat) :
    (GM.updateAchievementProgress s aid p now).currentCombo = s.currentCombo := by
  unfold GM.updateAchievementProgress
  cases s.achievements.find? (fun a => a.id == aid) with
  | none => rfl
  | some a => cases ha : a.unlocked <;> simp [ha]

/-- Achievement-progress updates never touch the best combo. -/
theorem uap_bestCombo (s : GM.GameState) (aid : String) (p now : Nat) :
    (GM.updateAchievementProgress s aid p now).bestCombo = s.bestCombo := by
  unfold GM.updateAchievementProgress
  cases s.achievements.find? (fun a => a.id == aid) with
  | none => rfl
  | some a => cases ha : a.unlocked <;> simp [ha]

/-- `chopLog` never lowers the best combo, and preserves the invariant
`currentCombo ≤ bestCombo`. -/
theorem chopLog_combo_best (s : GM.GameState) (logId : String)
    (rt : Option Nat) (now : Nat) :
    s.bestCombo ≤ ((GM.chopLog s logId rt now).1).bestCombo ∧
    (s.currentCombo ≤ s.bestCombo →
      ((GM.chopLog s logId rt now).1).currentCombo ≤
        ((GM.chopLog s logId rt now).1).bestCombo) := by
  unfold GM.chopLog
  cases hf : s.logs.find? (GM.chopPred logId) with
  | none => exact ⟨le_refl _, id⟩
  | some log =>
    by_cases hh : log.health - 1 ≤ 0
    · simp only [if_pos hh]
      cases hg : (log.type == "golden") <;>
        simp only [hg, Bool.false_eq_true, if_false, if_true,
          uap_currentCombo, uap_bestCombo] <;>
        (constructor
         · split <;> omega
         · intro hle; split <;> omega)
    · simp only [if_neg hh]
      exact ⟨le_refl _, id⟩

/-- Every session event preserves the combo invariant and never lowers the
best combo. -/
theorem stepGM_combo_best (s : GM.GameState) (e : GM.GMEvent) :
    s.bestCombo ≤ (GM.stepGM s e).bestCombo ∧
    (s.currentCombo ≤ s.bestCombo →
      (GM.stepGM s e).currentCombo ≤ (GM.stepGM s e).bestCombo) := by
  cases e with
  | chop logId rt now => exact chopLog_combo_best s logId rt now
  | reset now =>
    unfold GM.stepGM GM.resetCombo
    by_cases h0 : s.currentCombo = 0 <;> simp [h0]
  | spawn log now => exact ⟨le_refl _, id⟩

/-- Event sequences preserve the combo invariant and never lower the best
combo. -/
theorem runGM_combo_best (s : GM.GameState) (evs : List GM.GMEvent) :
    s.bestCombo ≤ (GM.runGM s evs).bestCombo ∧
    (s.currentCombo ≤ s.bestCombo →
      (GM.runGM s evs).currentCombo ≤ (GM.runGM s evs).bestCombo) := by
  induction evs generalizing s with
  | nil => exact ⟨le_refl _, id⟩
  | cons e rest ih =>
    have h1 := stepGM_combo_best s e
    have h2 := ih (GM.stepGM s e)
    exact ⟨le_trans h1.1 h2.1, fun h => h2.2 (h1.2 h)⟩

/-- Claim C3. Starting from any state satisfying `currentCombo ≤ bestCombo`,
every sequence of session events (chops — destroys and damages —, misses
and spawns) keeps `bestCombo ≥ comboCount` and never lowers `bestCombo`;
and the persisted session row written by `updateGameSession` satisfies
`combo ≤ maxCombo` as well. -/
theorem C3_bestCombo_invariant (s : GM.GameState) (evs : List GM.GMEvent)
    (r : CVX.SessionRec) (a : CVX.UpdateArgs)
    (h : s.currentCombo ≤ s.bestCombo) :
    (GM.runGM s evs).currentCombo ≤ (GM.runGM s evs).bestCombo ∧
    s.bestCombo ≤ (GM.runGM s evs).bestCombo ∧
    (CVX.updateGameSession r a).combo ≤ (CVX.updateGameSession r a).maxCombo := by
  have hr := runGM_combo_best s evs
  exact ⟨hr.2 h, hr.1, le_max_right _ _⟩

/-- Witness for C3: Scenario C — a miss from combo 10 (best 10) leaves
combo 0 while bestCombo stays 10. -/
theorem C3_witness :
    (GM.runGM Fixture.c3state [GM.GMEvent.reset 77]).currentCombo ≤
      (GM.runGM Fixture.c3state [GM.GMEvent.reset 77]).bestCombo ∧
    Fixture.c3state.bestCombo ≤
      (GM.runGM Fixture.c3state [GM.GMEvent.reset 77]).bestCombo ∧
    (CVX.updateGameSession Fixture.c3rec Fixture.c3args).combo ≤
      (CVX.updateGameSession Fixture.c3rec Fixture.c3args).maxCombo ∧
    (GM.runGM Fixture.c3state [GM.GMEvent.reset 77]).currentCombo = 0 ∧
    (GM.runGM Fixture.c3state [GM.GMEvent.reset 77]).bestCombo = 10 := by
  have h := C3_bestCombo_invariant Fixture.c3state [GM.GMEvent.reset 77]
    Fixture.c3rec Fixture.c3args (by decide)
  exact ⟨h.1, h.2.1, h.2.2, by decide, by decide⟩

/-- If no log in the scanned list contains the point, the scan misses. -/
theorem chopRev_none_of_no_hit (x y : Int) (rl : List RGC.LogObj)
    (h : ∀ l ∈ rl, RGC.containsPoint l x y = false) :
    RGC.chopRev x y rl = none := by
  induction rl with
  | nil => rfl
  | cons l rest ih =>
    unfold RGC.chopRev
    rw [h l (List.mem_cons_self l rest)]
    simp only [Bool.false_eq_true, if_false]
    rw [ih (fun m hm => h m (List.mem_cons_of_mem l hm))]

/-- Decomposition of a successful scan: the affected log is the first one
in scan order whose bounds contain the point, every log scanned before it
misses the point, and the rest of the list is untouched — the log is either
removed (destroyed) or kept with one hit fewer (damaged). -/
theorem chopRev_spec (x y : Int) (rl rl' : List RGC.LogObj) (ev : RGC.HitEvent)
    (h : RGC.chopRev x y rl = some (rl', ev)) :
    ∃ pre l post, rl = pre ++ l :: post ∧
      (∀ m ∈ pre, RGC.containsPoint m x y = false) ∧
      RGC.containsPoint l x y = true ∧
      (((RGC.decrLog l).hitsRemaining ≤ 0 ∧ ev = .destroyed (RGC.decrLog l) ∧
          rl' = pre ++ post) ∨
        (0 < (RGC.decrLog l).hitsRemaining ∧ ev = .damaged (RGC.decrLog l) ∧
          rl' = pre ++ RGC.decrLog l :: post)) := by
  induction rl generalizing rl' ev with
  | nil => simp [RGC.chopRev] at h
  | cons l rest ih =>
    unfold RGC.chopRev at h
    by_cases hc : RGC.containsPoint l x y = true
    · rw [hc] at h
      simp only [if_true] at h
      refine ⟨[], l, rest, rfl, by simp, hc, ?_⟩
      by_cases hd : (RGC.decrLog l).hitsRemaining ≤ 0
      · rw [if_pos hd] at h
        injection h with h'
        injection h' with h1 h2
        exact Or.inl ⟨hd, h2.symm, by rw [← h1]; rfl⟩
      · rw [if_neg hd] at h
        injection h with h'
        injection h' with h1 h2
        exact Or.inr ⟨by omega, h2.symm, by rw [← h1]; rfl⟩
    · rw [Bool.not_eq_true] at hc
      rw [hc] at h
      simp only [Bool.false_eq_true, if_false] at h
      cases hr : RGC.chopRev x y rest with
      | none => rw [hr] at h; cases h
      | some pr =>
        rw [hr] at h
        obtain ⟨rest', ev'⟩ := pr
        injection h with h'
        injection h' with h1 h2
        obtain ⟨pre, m, post, hdec, hpre, hcont, hcase⟩ :=
          ih rest' ev' hr
        refine ⟨l :: pre, m, post, by rw [hdec]; rfl, ?_, hcont, ?_⟩
        · intro n hn
          rcases List.mem_cons.mp hn with hn | hn
          · rwa [hn]
          · exact hpre n hn
        · rcases hcase with ⟨ha, hb, hcc⟩ | ⟨ha, hb, hcc⟩
          · exact Or.inl ⟨ha, by rw [← h2, hb], by rw [← h1, hcc]; rfl⟩
          · exact Or.inr ⟨ha, by rw [← h2, hb], by rw [← h1, hcc]; rfl⟩

/-- Claim C4. A pointer event either misses every log — then the combo is
reset to 0 and nothing else (score, logs, timers) changes — or affects
exactly the first log, in most-recently-spawned-first scan order, whose
bounds contain the point: that log alone is decremented (and removed when
destroyed), and every log scanned before it does not contain the point. -/
theorem C4_hit_resolution (s : RGC.Scene) (x y : Int) :
    ((∀ l ∈ s.logs, RGC.containsPoint l x y = false) →
      RGC.chopAtPosition false s x y = { s with combo := 0 }) ∧
    (∀ rl rl' ev, RGC.chopRev x y rl = some (rl', ev) →
      ∃ pre l post, rl = pre ++ l :: post ∧
        (∀ m ∈ pre, RGC.containsPoint m x y = false) ∧
        RGC.containsPoint l x y = true ∧
        (((RGC.decrLog l).hitsRemaining ≤ 0 ∧ ev = .destroyed (RGC.decrLog l) ∧
            rl' = pre ++ post) ∨
          (0 < (RGC.decrLog l).hitsRemaining ∧ ev = .damaged (RGC.decrLog l) ∧
            rl' = pre ++ RGC.decrLog l :: post))) := by
  constructor
  · intro h
    unfold RGC.chopAtPosition
    rw [chopRev_none_of_no_hit x y s.logs.reverse
      (fun l hl => h l (List.mem_reverse.mp hl))]
    rfl
  · exact fun rl rl' ev h => chopRev_spec x y rl rl' ev h

/-- Witness for C4: on the two-log scene, a pointer event at (999, 999)
misses everything and only zeroes the combo; and on the scan list
[c4logA, c4logB] a chop at (5, 5) passes over c4logA (not containing the
point) and destroys c4logB, removing exactly it. -/
theorem C4_witness :
    RGC.chopAtPosition false Fixture.c4scene 999 999 =
      { Fixture.c4scene with combo := 0 } ∧
    (∃ pre l post, Fixture.c4rl = pre ++ l :: post ∧
      (∀ m ∈ pre, RGC.containsPoint m 5 5 = false) ∧
      RGC.containsPoint l 5 5 = true ∧
      (((RGC.decrLog l).hitsRemaining ≤ 0 ∧
          RGC.HitEvent.destroyed (RGC.decrLog Fixture.c4logB) =
            .destroyed (RGC.decrLog l) ∧
          [Fixture.c4logA] = pre ++ post) ∨
        (0 < (RGC.decrLog l).hitsRemaining ∧
          RGC.HitEvent.destroyed (RGC.decrLog Fixture.c4logB) =
            .damaged (RGC.decrLog l) ∧
          [Fixture.c4logA] = pre ++ RGC.decrLog l :: post))) := by
  refine ⟨(C4_hit_resolution Fixture.c4scene 999 999).1 (by decide), ?_⟩
  exact (C4_hit_resolution Fixture.c4scene 5 5).2 Fixture.c4rl [Fixture.c4logA]
    (RGC.HitEvent.destroyed (RGC.decrLog Fixture.c4logB)) (by decide)

/-- `find?` after `updateFirst` with the same predicate: when the update
preserves the predicate, the first match is the image of the old first
match. -/
theorem find?_updateFirst (q : α → Bool) (f : α → α)
    (hf : ∀ a, q (f a) = q a) (l : List α) :
    List.find? q (GM.updateFirst q f l) = (List.find? q l).map f := by
  induction l with
  | nil => rfl
  | cons a rest ih =>
    unfold GM.updateFirst
    by_cases h : q a = true
    · rw [if_pos h]
      rw [List.find?_cons_of_pos _ (by rw [hf]; exact h),
          List.find?_cons_of_pos _ h]
      rfl
    · rw [if_neg h]
      rw [List.find?_cons_of_neg _ h, List.find?_cons_of_neg _ h, ih]

/-- Claim C7, counterexample. With combo_master at progress 5 (locked) and
the combo freshly reset, destroying log "a" calls
`updateAchievementProgress("combo_master", currentCombo = 1)`, which lowers
the recorded progress from 5 to 1 while the achievement is still locked. -/
theorem C7_counterexample :
    (GM.getAch Fixture.c7state "combo_master").map (fun a => a.progress) =
      some 5 ∧
    (GM.getAch Fixture.c7state "combo_master").map (fun a => a.unlocked) =
      some false ∧
    (GM.getAch ((GM.chopLog Fixture.c7state "a" none 99).1) "combo_master").map
        (fun a => a.progress) = some 1 ∧
    (GM.getAch ((GM.chopLog Fixture.c7state "a" none 99).1) "combo_master").map
        (fun a => a.unlocked) = some false ∧
    ¬ (5 : Nat) ≤ 1 := by decide

/-- Claim C7, amended. Once unlocked, an achievement is frozen: any further
`updateAchievementProgress` call returns the state unchanged (progress and
unlock timestamp included). While locked, an update sets the recorded
progress to min(supplied value, maxProgress) — it tracks the supplied value
and may decrease — and unlocks with timestamp `now` exactly when the
supplied value reaches maxProgress. -/
theorem C7_amended (s : GM.GameState) (aid : String) (p now : Nat)
    (a : GM.Achievement) (hfind : GM.getAch s aid = some a) :
    (a.unlocked = true → GM.updateAchievementProgress s aid p now = s) ∧
    (a.unlocked = false →
      GM.getAch (GM.updateAchievementProgress s aid p now) aid =
        some (if a.maxProgress ≤ min p a.maxProgress then
            { a with progress := min p a.maxProgress, unlocked := true,
                     unlockedAt := some now }
          else { a with progress := min p a.maxProgress })) := by
  unfold GM.getAch at hfind
  constructor
  · intro hu
    simp only [GM.updateAchievementProgress, hfind, hu, if_true]
  · intro hu
    simp only [GM.updateAchievementProgress, hfind, hu, Bool.false_eq_true, if_false]
    unfold GM.getAch
    show List.find? _ (GM.updateFirst _ _ s.achievements) = _
    rw [find?_updateFirst (fun b => b.id == aid) _
      (fun b => by by_cases hb : a.maxProgress ≤ min p a.maxProgress <;>
        simp [hb]) s.achievements]
    rw [hfind]
    by_cases hb : a.maxProgress ≤ min p a.maxProgress
    · simp [hb]
    · simp [hb, hu]

/-- Witness for C7: updating the unlocked achievement state is the identity,
and a locked combo_master at progress 5 updated with value 3 is recorded at
min(3, 10) = 3. -/
theorem C7_witness :
    GM.updateAchievementProgress Fixture.c7unlockedState "first_chop" 7 3 =
      Fixture.c7unlockedState ∧
    GM.getAch (GM.updateAchievementProgress Fixture.c7state "combo_master" 3 9)
        "combo_master" =
      some (if Fixture.comboMasterAt5.maxProgress ≤
              min 3 Fixture.comboMasterAt5.maxProgress then
          { Fixture.comboMasterAt5 with
            progress := min 3 Fixture.comboMasterAt5.maxProgress,
            unlocked := true, unlockedAt := some 9 }
        else { Fixture.comboMasterAt5 with
               progress := min 3 Fixture.comboMasterAt5.maxProgress }) := by
  constructor
  · exact (C7_amended Fixture.c7unlockedState "first_chop" 7 3
      Fixture.unlockedAch (by decide)).1 rfl
  · exact (C7_amended Fixture.c7state "combo_master" 3 9
      Fixture.comboMasterAt5 (by decide)).2 rfl

/-- Claim C8, counterexample. The part_000 draft of
`checkAndUnlockAchievements` has no case for the `total_chops` requirement:
with the thousand_cuts achievement (threshold 1000), a lifetime total of
999 chops plus 1 session chop meets the claimed predicate, yet the draft
unlocks nothing (while the later draft does unlock it). -/
theorem C8_counterexample :
    HOOK.thousandCuts.reqType = "total_chops" ∧
    HOOK.thousandCuts.reqValue ≤ 999 + Fixture.c8stats.chops ∧
    HOOK.checkAndUnlockV1 [] Fixture.c8stats [HOOK.thousandCuts] = [] ∧
    HOOK.checkAndUnlockV2 [] 999 Fixture.c8stats [HOOK.thousandCuts] =
      ["thousand_cuts"] := by decide

/-- Claim C8, amended. In the part_000 draft a `total_chops` (lifetime
chop count) achievement never fires: its predicate is false whatever the
stats, so the achievement is never unlocked. The later draft beside
convex/schema.ts implements the claimed rule: a not-yet-held `total_chops`
achievement is unlocked exactly when the player's lifetime totalChops plus
the session's chops reaches the threshold. -/
theorem C8_amended (pAch : List String) (ptc : Int) (stats : HOOK.SessionStats)
    (a : HOOK.AchievementDef) (hk : a.reqType = "total_chops") :
    HOOK.shouldUnlockV1 stats a = false ∧
    HOOK.checkAndUnlockV1 pAch stats [a] = [] ∧
    HOOK.shouldUnlockV2 ptc stats a = decide (a.reqValue ≤ ptc + stats.chops) ∧
    (pAch.contains a.id = false →
      HOOK.checkAndUnlockV2 pAch ptc stats [a] =
        (if a.reqValue ≤ ptc + stats.chops then [a.id] else [])) := by
  have hv1 : HOOK.shouldUnlockV1 stats a = false := by
    unfold HOOK.shouldUnlockV1
    rw [hk]
    rfl
  have hv2 : HOOK.shouldUnlockV2 ptc stats a =
      decide (a.reqValue ≤ ptc + stats.chops) := by
    unfold HOOK.shouldUnlockV2
    rw [hk]
    rfl
  refine ⟨hv1, ?_, hv2, ?_⟩
  · unfold HOOK.checkAndUnlockV1
    by_cases hc : pAch.contains a.id = true
    · rw [if_pos hc]
      rfl
    · rw [if_neg hc, hv1]
      simp only [Bool.false_eq_true, if_false]
      rfl
  · intro hnew
    unfold HOOK.checkAndUnlockV2
    rw [hnew]
    simp only [Bool.false_eq_true, if_false, hv2]
    by_cases hle : a.reqValue ≤ ptc + stats.chops
    · rw [if_pos (by rw [decide_eq_true_eq]; exact hle), if_pos hle]
      rfl
    · rw [if_neg (by rw [decide_eq_true_eq]; exact hle), if_neg hle]
      rfl

/-- Witness for C8: with lifetime 999 chops and 1 session chop, the later
draft unlocks thousand_cuts (and the part_000 draft's predicate is false). -/
theorem C8_witness :
    HOOK.shouldUnlockV1 Fixture.c8stats HOOK.thousandCuts = false ∧
    HOOK.checkAndUnlockV1 ["score_rookie"] Fixture.c8stats [HOOK.thousandCuts] = [] ∧
    HOOK.shouldUnlockV2 999 Fixture.c8stats HOOK.thousandCuts =
      decide (HOOK.thousandCuts.reqValue ≤ 999 + Fixture.c8stats.chops) ∧
    HOOK.checkAndUnlockV2 ["score_rookie"] 999 Fixture.c8stats [HOOK.thousandCuts] =
      (if HOOK.thousandCuts.reqValue ≤ 999 + Fixture.c8stats.chops then
        [HOOK.thousandCuts.id] else []) := by
  have h := C8_amended ["score_rookie"] 999 Fixture.c8stats HOOK.thousandCuts rfl
  exact ⟨h.1, h.2.1, h.2.2.1, h.2.2.2 (by decide)⟩
